import Mathlib

/-!
Verification of the BAroQUe METS validation core (`baroque/utils.py` and
`baroque/mets_validation.py`) via a shallow embedding in Lean.

The XML tree, the metadata spreadsheet lookup, the natural-language date
parser and the XML parser are external collaborators of the validated core;
they are modelled as explicit inputs (an element tree type, an optional
metadata record, an abstract `parse` function, an abstract parse outcome).
Python behaviours that matter to the claims are modelled explicitly:
`sys.exit` and uncaught exceptions become the `PyHalt` error type of an
`Except` result, `None` becomes `Option`, and Python truthiness of strings
and integers is spelled out where the source relies on it.
-/

namespace Baroque

/-- Whitespace characters recognised by Python's `\s` (ASCII range) and
`str.strip()`: space, tab, newline, carriage return, vertical tab, form feed. -/
def isPyWs (c : Char) : Bool :=
  c == ' ' || c == '\t' || c == '\n' || c == '\r' || c == '\x0b' || c == '\x0c'

/-- Models `re.sub(r"\s+", " ", text)`: every maximal run of whitespace
characters is replaced by a single space.  The boolean flag records whether
the previous character belonged to a whitespace run already collapsed. -/
def collapseWsAux : Bool → List Char → List Char
  | _, [] => []
  | prevWs, c :: rest =>
    if isPyWs c then
      if prevWs then collapseWsAux true rest
      else ' ' :: collapseWsAux true rest
    else c :: collapseWsAux false rest

/-- Models Python `str.replace(a, b)` where both `a` and `b` are single
characters. -/
def pyMapChar (a b : Char) (l : List Char) : List Char :=
  l.map (fun c => if c == a then b else c)

/-- Models Python `str.replace(a, "")` for a single character `a`. -/
def pyRemoveChar (a : Char) (l : List Char) : List Char :=
  l.filter (fun c => c != a)

/-- Models `text.replace("&", "and")` from `sanitize_text`. -/
def pyReplaceAmp (l : List Char) : List Char :=
  l.flatMap (fun c => if c == '&' then ['a', 'n', 'd'] else [c])

/-- Drops the trailing run of characters satisfying `p` (the right half of
Python `str.strip()`). -/
def dropWhileEnd (p : Char → Bool) : List Char → List Char
  | [] => []
  | c :: rest =>
    let r := dropWhileEnd p rest
    if r.isEmpty && p c then [] else c :: r

/-- Models Python `str.strip()`: drop leading and trailing whitespace. -/
def pyStrip (l : List Char) : List Char :=
  dropWhileEnd isPyWs (l.dropWhile isPyWs)

/-- Embedding of `baroque/utils.py::sanitize_text`.  `None` input yields the
empty string; otherwise the transformations of the source are applied in
order.  The straight double quote and the apostrophe are written with the
hexadecimal escapes `\x22` and `\x27`. -/
def sanitize_text : Option String → String
  | none => ""
  | some text =>
    let l := text.data.map (fun c => if c == '\n' then ' ' else c)
    let l := collapseWsAux false l
    let l := pyMapChar '“' '\x22' l
    let l := pyMapChar '”' '\x22' l
    let l := pyRemoveChar '\x22' l
    let l := pyRemoveChar '\x27' l
    let l := pyRemoveChar '-' l
    let l := pyRemoveChar ';' l
    let l := pyRemoveChar '…' l
    let l := pyReplaceAmp l
    let l := pyStrip l
    ⟨l⟩

/-! ## Data model of the METS rule engine -/

/-- An XML element as consumed by the validators: a (namespace-qualified)
tag, an attribute mapping, optional text, child elements, and the namespace
map that lxml exposes on an element (`.nsmap`, only consulted on the root).
Tags and search paths are kept as the prefixed strings the source uses
(for example `"mets:fileGrp"`); resolving prefixes to URIs is the XML
library's concern, outside the validated core. -/
inductive Elem : Type where
  | mk : String → List (String × String) → Option String → List Elem →
      List (String × String) → Elem

def Elem.tag : Elem → String
  | .mk t _ _ _ _ => t

def Elem.attrib : Elem → List (String × String)
  | .mk _ a _ _ _ => a

def Elem.text : Elem → Option String
  | .mk _ _ x _ _ => x

def Elem.children : Elem → List Elem
  | .mk _ _ _ c _ => c

def Elem.nsmap : Elem → List (String × String)
  | .mk _ _ _ _ n => n

/-- Python `element.attrib.get(name)`. -/
def attribGet (e : Elem) (name : String) : Option String :=
  (e.attrib.lookup name)

/-- lxml `element.findall(path)` for the single-step child paths the
validators use: all direct children whose tag matches. -/
def findall (e : Elem) (path : String) : List Elem :=
  e.children.filter (fun c => c.tag == path)

/-- lxml `element.find(path)`: the first matching direct child, or `None`. -/
def pyFind (e : Elem) (path : String) : Option Elem :=
  (findall e path).head?

/-- Severity of a finding recorded through the external sink. -/
inductive Severity : Type where
  | error
  | warning
deriving DecidableEq, Repr

/-- A finding reported through the sink: `self.error(path, item_id, msg)`
or `self.warn(path, item_id, msg)`. -/
structure Finding : Type where
  severity : Severity
  path : String
  itemId : String
  message : String
deriving DecidableEq, Repr

/-- The validator state relevant to reporting: `self.path_to_mets` and
`self.item_id`, set by `parse_item_mets` before the section validators run. -/
structure Ctx : Type where
  path_to_mets : String
  item_id : String
deriving DecidableEq, Repr

def errF (ctx : Ctx) (message : String) : Finding :=
  ⟨Severity.error, ctx.path_to_mets, ctx.item_id, message⟩

def warnF (ctx : Ctx) (message : String) : Finding :=
  ⟨Severity.warning, ctx.path_to_mets, ctx.item_id, message⟩

/-- The two ways the Python process can abandon normal control flow inside
this core: an uncaught exception, or `sys.exit()`. -/
inductive PyHalt : Type where
  | exc : String → PyHalt
  | exit : PyHalt
deriving DecidableEq, Repr

def countErrors (l : List Finding) : Nat :=
  (l.filter (fun f => f.severity == Severity.error)).length

def countWarnings (l : List Finding) : Nat :=
  (l.filter (fun f => f.severity == Severity.warning)).length

/-- Findings of a normally-terminating run; an aborted run contributes none. -/
def okFindings : Except PyHalt (List Finding) → List Finding
  | .ok l => l
  | .error _ => []

/-- The module-level `namespaces` dictionary of `mets_validation.py`, in
insertion order. -/
def namespacesList : List (String × String) :=
  [("mets", "http://www.loc.gov/METS/"),
   ("dc", "http://purl.org/dc/elements/1.1"),
   ("aes", "http://www.aes.org/audioObject"),
   ("ph", "http://www.aes.org/processhistory"),
   ("mods", "http://www.loc.gov/mods/v3"),
   ("xlink", "http://www.w3.org/1999/xlink")]

/-! ## Helper primitives of `MetsValidator` -/

/-- `check_tag_text(tag, argument, value=None)`: sanitize both sides, and
with argument `"Is"` report a mismatch; any other argument does nothing. -/
def check_tag_text (ctx : Ctx) (tag : Elem) (argument : String)
    (value : Option String) : List Finding :=
  let tag_text := sanitize_text tag.text
  let v := sanitize_text value
  if argument = "Is" then
    if tag_text ≠ v then
      [errF ctx (tag_text ++ " text does not equal " ++ v ++ " value in " ++ tag.tag)]
    else []
  else []

/-- `check_tag_attrib_exists(tag, attribute)`: returns the `exists` flag and
the findings it recorded. -/
def check_tag_attrib_exists (ctx : Ctx) (tag : Elem) (attr : String) :
    Bool × List Finding :=
  if (attribGet tag attr).isNone then
    (false, [errF ctx (attr ++ " attribute does not exists in " ++ tag.tag)])
  else (true, [])

/-- `check_tag_attrib_equals(tag, attribute, value)`.  The source builds the
error message by string concatenation, which raises `TypeError` if either
side of the failed comparison is `None`; its callers only reach it with the
attribute present and a value supplied. -/
def check_tag_attrib_equals (ctx : Ctx) (tag : Elem) (attr : String)
    (value : Option String) : Except PyHalt (List Finding) :=
  if attribGet tag attr = value then .ok []
  else
    match attribGet tag attr, value with
    | some a, some v =>
      .ok [errF ctx (a ++ " in " ++ attr ++ " attribute does not equal " ++
        v ++ " value in " ++ tag.tag)]
    | _, _ => .error (.exc "TypeError: can only concatenate str to str")

/-- `check_tag_attrib(tag, attribute, argument, value=None)`: dispatch on the
argument; any argument other than `"Exists"` or `"Is"` prints a message and
calls `sys.exit()`. -/
def check_tag_attrib (ctx : Ctx) (tag : Elem) (attr : String)
    (argument : String) (value : Option String) : Except PyHalt (List Finding) :=
  if argument = "Exists" then
    .ok (check_tag_attrib_exists ctx tag attr).2
  else if argument = "Is" then
    let r := check_tag_attrib_exists ctx tag attr
    if r.1 then do
      let g ← check_tag_attrib_equals ctx tag attr value
      pure (r.2 ++ g)
    else .ok r.2
  else .error PyHalt.exit

/-- `check_element_exists(element_path)`: the xpath query itself is performed
by lxml, so the list of matches is taken as input.  Exactly one match is
required; the element is returned only in that case. -/
def check_element_exists (ctx : Ctx) (element_path : String)
    (elements : List Elem) : Option Elem × Bool × List Finding :=
  if elements.length = 0 then
    (none, false, [errF ctx ("mets xml has no element " ++ element_path)])
  else if elements.length > 1 then
    (none, false, [errF ctx ("mets xml has multiple " ++ element_path ++ " elements")])
  else (elements.head?, true, [])

/-- `check_subelements_exist(element, subelement_path, expected=False)`.
`expected` is an integer in the source with `False` as the default; the
guard `if expected and ...` therefore treats both the default and `0` as
"no expected count". -/
def check_subelements_exist (ctx : Ctx) (element : Elem)
    (subelement_path : String) (expected : Option Nat) :
    List Elem × Bool × List Finding :=
  let subelements := findall element subelement_path
  let expTruthy := match expected with
    | some n => n != 0
    | none => false
  if expTruthy && subelements.length != expected.getD 0 then
    (subelements, false,
      [errF ctx (toString subelements.length ++ " " ++ subelement_path ++
        " subelements found in " ++ element.tag ++ ", expected " ++
        toString (expected.getD 0))])
  else if subelements.length = 0 then
    (subelements, false,
      [errF ctx ("No " ++ subelement_path ++ " subelements found in " ++ element.tag)])
  else (subelements, true, [])

/-- `check_subelement_exists(element, subelement_path)`. -/
def check_subelement_exists (ctx : Ctx) (element : Elem)
    (subelement_path : String) : Option Elem × Bool × List Finding :=
  match pyFind element subelement_path with
  | none =>
    (none, false,
      [errF ctx ("subelement " ++ subelement_path ++ " not found in " ++ element.tag)])
  | some s => (some s, true, [])

/-- Python `s[:-1]`. -/
def pySliceDropLast (s : String) : String := ⟨s.data.dropLast⟩

/-- `check_dates(metadata_date, mets_date)`.  `dateparser.parse` is an
external collaborator, modelled as an abstract `parse` function into an
abstract comparable value (`Option Nat`, with `none` for unparsable input).
The source's `if metadata_date == "Undated" and mets_date == "undated": pass`
has no effect: control falls through to the parse-and-compare branch in
every case, so no corresponding branch appears here.  `dateparser.parse`
raises on a non-string argument, which happens when the `dc:date` element
has no text. -/
def check_dates (ctx : Ctx) (parse : String → Option Nat)
    (metadata_date : String) (mets_date : Option String) :
    Except PyHalt (List Finding) :=
  let metadata_date := sanitize_text (some metadata_date)
  match mets_date with
  | none => .error (.exc "TypeError: input must be str")
  | some mets_date =>
    if parse metadata_date ≠ parse mets_date ∧
        parse (pySliceDropLast metadata_date) ≠ parse mets_date then
      .ok [errF ctx (metadata_date ++ " date in metadata export does not equal " ++
        mets_date ++ " date in mets")]
    else .ok []

/-! ## Item data and sorting -/

/-- The categories of `item["files"]` the embedded validators consult. -/
structure ItemFiles : Type where
  xml : List String
  wav : List String
  mp3 : List String
  txt : List String
deriving DecidableEq, Repr

/-- One row of the metadata export spreadsheet (`item_metadata`); each field
may be absent.  Python truthiness also discards empty strings, see
`pyTruthy`. -/
structure ItemMetadata : Type where
  item_title : Option String
  collection_title : Option String
  item_date : Option String
deriving DecidableEq, Repr

/-- Truthiness of `d.get(key)` for a string-valued key: `None` and the empty
string are falsy. -/
def pyTruthy : Option String → Bool
  | none => false
  | some s => s != ""

/-- Python `sorted` on a list of strings (code-point lexicographic order,
which is `String`'s linear order). -/
def pySortStr (l : List String) : List String :=
  l.insertionSort (· ≤ ·)

/-- Python `sorted` on a list that may contain `None` (the collected
`fileGrp` `ID` attributes).  Sorting a list of two or more elements compares
every element at least once, and any comparison involving `None` raises
`TypeError`; a list needing no comparison is returned as is. -/
def pySortedOptStr (l : List (Option String)) : Except PyHalt (List (Option String)) :=
  if l.length ≤ 1 then .ok l
  else if l.all (fun o => o.isSome) then
    .ok ((pySortStr (l.filterMap id)).map some)
  else .error (.exc "TypeError: unorderable types NoneType and str")

/-- Python `repr` of a string as used by `"{}".format(list)`, simplified to
quoting with `\x27`. -/
def pyStrRepr (s : String) : String := "\x27" ++ s ++ "\x27"

def pyOptStrRepr : Option String → String
  | none => "None"
  | some s => pyStrRepr s

/-- Python `"{}".format(l)` for a list. -/
def pyListRepr {α : Type} (f : α → String) (l : List α) : String :=
  "[" ++ String.intercalate ", " (l.map f) ++ "]"

/-! ## Section validators -/

/-- `validate_root_element`: the xpath matches for `/mets:mets` are taken as
input.  `check_element_exists` returns the element exactly when its `exists`
flag is true, so the source's `if exists:` is rendered as a match on the
optional element. -/
def validate_root_element (ctx : Ctx) (metsElems : List Elem) :
    Except PyHalt (List Finding) :=
  match check_element_exists ctx "/mets:mets" metsElems with
  | (none, _, f0) => .ok f0
  | (some mets_element, _, f0) => do
    let nsFindings := namespacesList.filterMap (fun pr =>
      if ¬ (mets_element.nsmap.lookup pr.1 = some pr.2) then
        some (errF ctx ("mets xml is missing the following namespace: " ++
          pr.1 ++ ":" ++ pr.2))
      else none)
    let f1 ← check_tag_attrib ctx mets_element "OBJID" "Is" (some ctx.item_id)
    let f2 ← check_tag_attrib ctx mets_element "TYPE" "Is" (some "AUDIO RECORDING")
    .ok (f0 ++ nsFindings ++ f1 ++ f2)

/-- `validate_descriptive_metadata`: the xpath matches for
`/mets:mets/mets:dmdSec` are taken as input, together with the item's
optional spreadsheet metadata and the abstract date parser used by
`check_dates`. -/
def validate_descriptive_metadata (ctx : Ctx) (parse : String → Option Nat)
    (item_metadata : Option ItemMetadata) (dmdSecs : List Elem) :
    Except PyHalt (List Finding) :=
  match check_element_exists ctx "/mets:mets/mets:dmdSec" dmdSecs with
  | (none, _, f0) => .ok f0
  | (some descriptive_metadata, _, f0) =>
    match item_metadata with
    | none =>
      .ok (f0 ++ [warnF ctx "item has no associated metadata in the metadata export spreadsheet to validate against mets xml"])
    | some md =>
      match check_subelement_exists ctx descriptive_metadata "mets:mdWrap" with
      | (none, _, f1) => .ok (f0 ++ f1)
      | (some mdWrap, _, f1) => do
        let f2 ← check_tag_attrib ctx mdWrap "MDTYPE" "Is" (some "DC")
        let f3 ← check_tag_attrib ctx mdWrap "LABEL" "Is" (some "Dublin Core Metadata")
        match check_subelement_exists ctx mdWrap "mets:xmlData" with
        | (none, _, f4) => .ok (f0 ++ f1 ++ f2 ++ f3 ++ f4)
        | (some xmlData, _, f4) => do
          let fTitle :=
            if pyTruthy md.item_title then
              match check_subelement_exists ctx xmlData "dc:title" with
              | (some dc_title, _, g) => g ++ check_tag_text ctx dc_title "Is" md.item_title
              | (none, _, g) => g
            else
              [warnF ctx "item title not found in metadata export spreadsheet to validate against mets xml"]
          let fRelation :=
            if pyTruthy md.collection_title then
              match check_subelement_exists ctx xmlData "dc:relation" with
              | (some dc_relation, _, g) =>
                g ++ check_tag_text ctx dc_relation "Is" md.collection_title
              | (none, _, g) => g
            else
              [warnF ctx "collection title not found in metadata export spreadsheet to validate against mets xml"]
          let fIdentifier :=
            match check_subelement_exists ctx xmlData "dc:identifier" with
            | (some dc_identifier, _, g) =>
              g ++ check_tag_text ctx dc_identifier "Is" (some ctx.item_id)
            | (none, _, g) => g
          let fDate ←
            if pyTruthy md.item_date then
              match check_subelement_exists ctx xmlData "dc:date" with
              | (some dc_date, _, g) => do
                let h ← check_dates ctx parse (md.item_date.getD "") dc_date.text
                pure (g ++ h)
              | (none, _, g) => pure g
            else
              pure [warnF ctx "item date not found in metadata export spreadsheet to validate against mets xml"]
          let fFormat := (check_subelement_exists ctx xmlData "dc:format").2.2
          let fFormatExtent := (check_subelements_exist ctx xmlData "dc:format.extent" none).2.2
          .ok (f0 ++ f1 ++ f2 ++ f3 ++ f4 ++ fTitle ++ fRelation ++ fIdentifier ++
            fDate ++ fFormat ++ fFormatExtent)

/-- `validate_file_section`: the xpath matches for `/mets:mets/mets:fileSec`
are taken as input.  The loop collects `file_group.attrib.get("ID")` values
(possibly `None`); `sorted` on the collected list raises `TypeError` when a
`None` is present. -/
def validate_file_section (ctx : Ctx) (fileSecs : List Elem) :
    Except PyHalt (List Finding) :=
  match check_element_exists ctx "/mets:mets/mets:fileSec" fileSecs with
  | (none, _, f0) => .ok f0
  | (some file_section, _, f0) =>
    match check_subelements_exist ctx file_section "mets:fileGrp" (some 2) with
    | (_, false, f1) => .ok (f0 ++ f1)
    | (file_groups, true, f1) =>
      let expected_ids := ["audio-files", "media_images"]
      let loopResult := file_groups.foldl
        (fun (acc : List (Option String) × List Finding) file_group =>
          let file_group_id := attribGet file_group "ID"
          let nested :=
            if file_group_id = some "audio-files" then
              (check_subelements_exist ctx file_group "mets:fileGrp" (some 3)).2.2
            else []
          (acc.1 ++ [file_group_id], acc.2 ++ nested)) ([], [])
      let found_ids := loopResult.1
      let f2 := loopResult.2
      match pySortedOptStr found_ids with
      | .error e => .error e
      | .ok sorted_found =>
        if sorted_found ≠ expected_ids.map some then
          .ok (f0 ++ f1 ++ f2 ++
            [errF ctx ("mets xml fileGrp IDs " ++ pyListRepr pyOptStrRepr found_ids ++
              " do not match expected " ++ pyListRepr pyStrRepr expected_ids)])
        else .ok (f0 ++ f1 ++ f2)

/-- Python `fid.replace("mdp.", "")`: every occurrence of the substring
`"mdp."` is removed, scanning left to right. -/
def removeMdpList : List Char → List Char
  | 'm' :: 'd' :: 'p' :: '.' :: rest => removeMdpList rest
  | c :: rest => c :: removeMdpList rest
  | [] => []

def pyRemoveMdp (s : String) : String := ⟨removeMdpList s.data⟩

def pyStripStr (s : String) : String := ⟨pyStrip s.data⟩

/-- The fptr collection loop of `validate_structural_map_section`:
`fptr.attrib.get("FILEID").replace("mdp.", "").strip()` for every `fptr`
child of every nested div.  A missing `FILEID` makes the attribute access
return `None`, and `.replace` on `None` raises `AttributeError`. -/
def collectFilePointers (sub_divs : List Elem) : Except PyHalt (List String) :=
  sub_divs.foldl (fun acc sub_div =>
    (findall sub_div "mets:fptr").foldl (fun acc2 fptr =>
      match acc2 with
      | .error e => .error e
      | .ok l =>
        match attribGet fptr "FILEID" with
        | none => .error (.exc "AttributeError: NoneType object has no attribute replace")
        | some fid => .ok (l ++ [pyStripStr (pyRemoveMdp fid)])) acc) (.ok [])

/-- `validate_structural_map_section`: the xpath matches for
`/mets:mets/mets:structMap` are taken as input together with the item's
file lists. -/
def validate_structural_map_section (ctx : Ctx) (item_files : ItemFiles)
    (structMaps : List Elem) : Except PyHalt (List Finding) :=
  match check_element_exists ctx "/mets:mets/mets:structMap" structMaps with
  | (none, _, f0) => .ok f0
  | (some structural_map_section, _, f0) =>
    match check_subelement_exists ctx structural_map_section "mets:div" with
    | (none, _, f1) => .ok (f0 ++ f1)
    | (some div_one, _, f1) =>
      match check_subelements_exist ctx div_one "mets:div" none with
      | (_, false, f2) => .ok (f0 ++ f1 ++ f2)
      | (sub_divs, true, f2) =>
        let expected_files := item_files.wav ++ item_files.mp3
        match collectFilePointers sub_divs with
        | .error e => .error e
        | .ok file_pointers =>
          if pySortStr file_pointers ≠ pySortStr expected_files then
            .ok (f0 ++ f1 ++ f2 ++
              [errF ctx ("mets structMap fileptr IDs " ++
                pyListRepr pyStrRepr file_pointers ++ " do not match expected " ++
                pyListRepr pyStrRepr expected_files)])
          else .ok (f0 ++ f1 ++ f2)

/-! ## Per-item driver -/

/-- One record of `project.items`. -/
structure Item : Type where
  id : String
  path : String
  files : ItemFiles
deriving DecidableEq, Repr

/-- `os.path.join` for the two-component case used by `parse_item_mets`. -/
def os_path_join (a b : String) : String := a ++ "/" ++ b

/-- The per-item body of `validate_mets` together with `parse_item_mets`.
`etree.parse` is an external collaborator; its outcome for a given path is
the abstract `parseXml` argument, whose `.error` case stands for any raised
exception (malformed XML, missing file, I/O error) — the source guards the
call with a bare `except:`.  The six section validators are abstracted as a
list of functions run in order on parse success, each receiving the context,
the item's spreadsheet metadata and the parsed tree. -/
def validate_mets_item
    (validators : List (Ctx → Option ItemMetadata → Elem → Except PyHalt (List Finding)))
    (item_metadata_lookup : String → Option ItemMetadata)
    (parseXml : String → Except String Elem) (item : Item) :
    Except PyHalt (List Finding) :=
  match item.files.xml with
  | [] => .ok []
  | mets :: _ =>
    let ctx : Ctx := ⟨os_path_join item.path mets, item.id⟩
    match parseXml ctx.path_to_mets with
    | .error _ => .ok [errF ctx "mets xml is not valid"]
    | .ok tree =>
      validators.foldlM (fun acc v => do
        let f ← v ctx (item_metadata_lookup item.id) tree
        pure (acc ++ f)) []

/-! ## Concrete inputs used by witnesses and counterexamples -/

def ctx0 : Ctx := ⟨"/data/item0/item0.mets.xml", "item0"⟩

def parse0 : String → Option Nat := fun _ => none

def tagA : Elem := .mk "mets:mets" [("OBJID", "id0")] none [] []

def agent0 : Elem := .mk "mets:agent" [] none [] []

def hdr2 : Elem := .mk "mets:metsHdr" [] none [agent0, agent0] []

def hdr3 : Elem := .mk "mets:metsHdr" [] none [agent0, agent0, agent0] []

def dmd0 : Elem := .mk "mets:dmdSec" [] none [] []

def itemW : Item := ⟨"item0", "/data", ⟨["m.xml"], [], [], []⟩⟩

/-! ## Claim C7 -/

/-- Claim C7: `check_tag_attrib` with any argument other than `"Exists"` or
`"Is"` halts the whole process (`sys.exit`); with `"Exists"` it performs the
existence check only; with `"Is"` it checks existence first and compares the
value only when the attribute is present. -/
theorem c7_dispatcher (ctx : Ctx) (tag : Elem) (a v mode : String) :
    (mode ≠ "Exists" → mode ≠ "Is" →
      check_tag_attrib ctx tag a mode (some v) = .error PyHalt.exit) ∧
    (check_tag_attrib ctx tag a "Exists" (some v) =
      .ok (check_tag_attrib_exists ctx tag a).2) ∧
    (attribGet tag a = none →
      check_tag_attrib ctx tag a "Is" (some v) =
        .ok [errF ctx (a ++ " attribute does not exists in " ++ tag.tag)]) ∧
    (∀ w, attribGet tag a = some w →
      check_tag_attrib ctx tag a "Is" (some v) =
        .ok (if w ≠ v then
          [errF ctx (w ++ " in " ++ a ++ " attribute does not equal " ++ v ++
            " value in " ++ tag.tag)]
        else [])) := by
  refine ⟨fun h1 h2 => by simp [check_tag_attrib, h1, h2], by simp [check_tag_attrib],
    fun h => by simp [check_tag_attrib, check_tag_attrib_exists, h], fun w h => ?_⟩
  by_cases hv : w = v <;>
    simp [check_tag_attrib, check_tag_attrib_exists, check_tag_attrib_equals, h, hv]

/-- Witness for C7 at concrete inputs: an unsupported mode aborts, and mode
`"Is"` on a present, equal attribute reports nothing. -/
theorem c7_dispatcher_witness :
    check_tag_attrib ctx0 tagA "OBJID" "Contains" (some "x") = .error PyHalt.exit ∧
    check_tag_attrib ctx0 tagA "OBJID" "Is" (some "id0") = .ok [] := by
  constructor
  · exact (c7_dispatcher ctx0 tagA "OBJID" "x" "Contains").1 (by decide) (by decide)
  · have h := (c7_dispatcher ctx0 tagA "OBJID" "id0" "Is").2.2.2 "id0" rfl
    simpa using h

/-! ## Claim C10 -/

/-- Claim C10: `check_tag_text` with any argument other than `"Is"` performs
no comparison and records nothing — a silent no-op — whereas
`check_tag_attrib` on the same unsupported argument halts the process. -/
theorem c10_text_mode_noop (ctx : Ctx) (tag tag2 : Elem) (a : String)
    (value value2 : Option String) (argument : String) (h : argument ≠ "Is") :
    check_tag_text ctx tag argument value = [] ∧
    (argument ≠ "Exists" →
      check_tag_attrib ctx tag2 a argument value2 = .error PyHalt.exit) := by
  exact ⟨by simp [check_tag_text, h], fun h2 => by simp [check_tag_attrib, h, h2]⟩

/-- Witness for C10 at the concrete argument `"Contains"`. -/
theorem c10_text_mode_noop_witness :
    check_tag_text ctx0 tagA "Contains" none = [] ∧
    check_tag_attrib ctx0 tagA "ID" "Contains" none = .error PyHalt.exit := by
  have h := c10_text_mode_noop ctx0 tagA tagA "ID" none none "Contains" (by decide)
  exact ⟨h.1, h.2 (by decide)⟩

/-! ## Claim C4 -/

/-- Claim C4: `check_dates` emits an error if and only if the parsed
sanitized metadata date differs from the parsed mets date and the parsed
metadata date with its last character stripped also differs; the
`"Undated"`/`"undated"` special case does not short-circuit but falls into
this same parse-and-compare branch, and when the parser maps both strings to
the same value (both are unparsable dates) no error is emitted. -/
theorem c4_check_dates (ctx : Ctx) (parse : String → Option Nat) (md m : String) :
    (countErrors (okFindings (check_dates ctx parse md (some m))) =
      if parse (sanitize_text (some md)) ≠ parse m ∧
          parse (pySliceDropLast (sanitize_text (some md))) ≠ parse m then 1 else 0) ∧
    (parse "Undated" = parse "undated" →
      check_dates ctx parse "Undated" (some "undated") = .ok []) := by
  constructor
  · show countErrors (okFindings (if _ then _ else _)) = _
    split <;> rename_i hc <;> simp [hc, countErrors, okFindings, errF]
  · intro h
    have hs : sanitize_text (some "Undated") = "Undated" := rfl
    simp [check_dates, hs, h]

/-- Witness for C4: with a parser treating both strings as unparsable,
`check_dates("Undated", "undated")` records nothing. -/
theorem c4_check_dates_witness :
    check_dates ctx0 parse0 "Undated" (some "undated") = .ok [] :=
  (c4_check_dates ctx0 parse0 "x" "y").2 rfl

/-! ## Claim C3 -/

/-- Claim C3 (counterexample): on a parent with exactly 2 matching children
and an expected count of 3, `check_subelements_exist` does emit exactly one
cardinality error with `exists = false`, but it returns the 2 found
children, not an empty list as the claim states. -/
theorem c3_counterexample :
    (check_subelements_exist ctx0 hdr2 "mets:agent" (some 3)).1 ≠ [] ∧
    (check_subelements_exist ctx0 hdr2 "mets:agent" (some 3)).2.1 = false ∧
    (check_subelements_exist ctx0 hdr2 "mets:agent" (some 3)).2.2 =
      [errF ctx0 "2 mets:agent subelements found in mets:metsHdr, expected 3"] := by
  refine ⟨fun h => ?_, rfl, rfl⟩
  have h2 : ([agent0, agent0] : List Elem) = [] := h
  simp at h2

/-- Claim C3 (amended): with `expectedCount = 3`, a parent with exactly 3
matching children gets them back with `exists = true` and no error; with 2
or 4 matching children the call returns the found children (not an empty
list) with `exists = false` and exactly one cardinality error naming the
actual and expected counts. -/
theorem c3_amended (ctx : Ctx) (element : Elem) (subelement_path : String) :
    ((findall element subelement_path).length = 3 →
      check_subelements_exist ctx element subelement_path (some 3) =
        (findall element subelement_path, true, [])) ∧
    ((findall element subelement_path).length = 2 ∨
        (findall element subelement_path).length = 4 →
      check_subelements_exist ctx element subelement_path (some 3) =
        (findall element subelement_path, false,
          [errF ctx (toString (findall element subelement_path).length ++ " " ++
            subelement_path ++ " subelements found in " ++ element.tag ++
            ", expected " ++ toString (3 : Nat))])) := by
  constructor
  · intro h
    simp [check_subelements_exist, h]
  · rintro (h | h) <;> simp [check_subelements_exist, h]

/-- Witness for C3 (amended) at a parent with exactly 3 `mets:agent`
children. -/
theorem c3_amended_witness :
    check_subelements_exist ctx0 hdr3 "mets:agent" (some 3) =
      ([agent0, agent0, agent0], true, []) :=
  (c3_amended ctx0 hdr3 "mets:agent").1 rfl

/-! ## Claim C9 -/

/-- Claim C9: for an item with a non-empty xml file list, any exception from
locating or parsing the METS file (the abstract parse outcome `.error e`
covers malformed XML, a missing file and I/O errors alike — the source
guards the call with a bare `except:`) is caught and reported as the single
error `"mets xml is not valid"` attributed to the document path and item id,
and none of the section validators runs; no exception propagates. -/
theorem c9_parse_guard
    (validators : List (Ctx → Option ItemMetadata → Elem → Except PyHalt (List Finding)))
    (lookup : String → Option ItemMetadata) (parseXml : String → Except String Elem)
    (item : Item) (mets : String) (rest : List String) (e : String)
    (hx : item.files.xml = mets :: rest)
    (hp : parseXml (os_path_join item.path mets) = .error e) :
    validate_mets_item validators lookup parseXml item =
      .ok [⟨Severity.error, os_path_join item.path mets, item.id, "mets xml is not valid"⟩] := by
  unfold validate_mets_item
  rw [hx]
  simp only [Ctx.path_to_mets]
  rw [hp]
  rfl

/-- Witness for C9: a concrete item whose parse attempt raises (for example
`FileNotFoundError`) yields exactly the one parse error, with an empty
validator list standing for the skipped sequence. -/
theorem c9_parse_guard_witness :
    validate_mets_item [] (fun _ => none) (fun _ => .error "FileNotFoundError") itemW =
      .ok [⟨Severity.error, "/data/m.xml", "item0", "mets xml is not valid"⟩] :=
  c9_parse_guard [] (fun _ => none) (fun _ => .error "FileNotFoundError") itemW
    "m.xml" [] "FileNotFoundError" rfl rfl

/-! ## Claim C1 -/

/-- Claim C1 (counterexample): for an item with no spreadsheet metadata and
a document with zero `dmdSec` elements, the descriptive-metadata validator
emits one error and zero warnings — not one warning and zero errors as the
claim states for arbitrary `dmdSec` content. -/
theorem c1_counterexample :
    ¬ (countWarnings (okFindings (validate_descriptive_metadata ctx0 parse0 none [])) = 1 ∧
       countErrors (okFindings (validate_descriptive_metadata ctx0 parse0 none [])) = 0) := by
  decide

/-- Claim C1 (amended): for an item with no spreadsheet metadata, the
descriptive-metadata validator emits exactly one warning and zero errors
whenever the document has exactly one `dmdSec` element, regardless of that
element's content; with zero or multiple `dmdSec` elements it instead emits
exactly one error and no warning, because the section is located before the
spreadsheet metadata is consulted. -/
theorem c1_amended (ctx : Ctx) (parse : String → Option Nat) (d : Elem)
    (dmdSecs : List Elem) :
    (validate_descriptive_metadata ctx parse none [d] =
      .ok [warnF ctx "item has no associated metadata in the metadata export spreadsheet to validate against mets xml"]) ∧
    (dmdSecs.length ≠ 1 →
      ∃ m, validate_descriptive_metadata ctx parse none dmdSecs = .ok [errF ctx m]) := by
  constructor
  · simp [validate_descriptive_metadata, check_element_exists]
  · intro h
    match dmdSecs, h with
    | [], _ =>
      exact ⟨"mets xml has no element /mets:mets/mets:dmdSec",
        by simp [validate_descriptive_metadata, check_element_exists]⟩
    | a :: b :: t, _ =>
      refine ⟨"mets xml has multiple /mets:mets/mets:dmdSec elements", ?_⟩
      simp [validate_descriptive_metadata, check_element_exists]

/-- Witness for C1 (amended): a concrete empty `dmdSec` element yields the
single warning, and the zero-element document yields a single error. -/
theorem c1_amended_witness :
    validate_descriptive_metadata ctx0 parse0 none [dmd0] =
      .ok [warnF ctx0 "item has no associated metadata in the metadata export spreadsheet to validate against mets xml"] ∧
    ∃ m, validate_descriptive_metadata ctx0 parse0 none [] = .ok [errF ctx0 m] :=
  ⟨(c1_amended ctx0 parse0 dmd0 []).1, (c1_amended ctx0 parse0 dmd0 []).2 (by decide)⟩

/-! ## Claim C6 -/

theorem countErrors_cons_errF (ctx : Ctx) (m : String) (l : List Finding) :
    countErrors (errF ctx m :: l) = countErrors l + 1 := by
  simp [countErrors, errF, List.filter_cons]

theorem countWarnings_cons_errF (ctx : Ctx) (m : String) (l : List Finding) :
    countWarnings (errF ctx m :: l) = countWarnings l := by
  simp [countWarnings, errF, List.filter_cons]

/-- The number of findings produced by mapping a decidable test over a list
and keeping an error finding for each failure. -/
theorem countErrors_filterMap_ite {α : Type} (ctx : Ctx) (L : List α)
    (p : α → Prop) [DecidablePred p] (g : α → String) :
    countErrors (L.filterMap (fun x => if p x then some (errF ctx (g x)) else none)) =
      L.countP (fun x => decide (p x)) ∧
    countWarnings (L.filterMap (fun x => if p x then some (errF ctx (g x)) else none)) = 0 := by
  induction L with
  | nil => exact ⟨rfl, rfl⟩
  | cons a t ih =>
    by_cases h : p a
    · simp only [List.filterMap_cons, if_pos h, List.countP_cons]
      refine ⟨?_, ?_⟩
      · rw [countErrors_cons_errF, ih.1]
        simp [h]
      · rw [countWarnings_cons_errF]
        exact ih.2
    · simp only [List.filterMap_cons, if_neg h, List.countP_cons]
      refine ⟨?_, ?_⟩
      · rw [ih.1]
        simp [h]
      · exact ih.2

/-- Claim C6: with the root element present and unique, the root validator
emits one error for each of the six required namespace prefixes whose URI is
missing or mismatched on the root's namespace map, and a namespace error
does not prevent the `OBJID` and `TYPE` checks: with those attributes
correct, the run result is exactly the per-namespace error list, so exactly
one missing namespace yields exactly one error and no warning. -/
theorem c6_root (ctx : Ctx) (root : Elem)
    (hO : attribGet root "OBJID" = some ctx.item_id)
    (hT : attribGet root "TYPE" = some "AUDIO RECORDING") :
    validate_root_element ctx [root] =
      .ok (namespacesList.filterMap (fun pr =>
        if ¬ (root.nsmap.lookup pr.1 = some pr.2) then
          some (errF ctx ("mets xml is missing the following namespace: " ++
            pr.1 ++ ":" ++ pr.2))
        else none)) ∧
    (namespacesList.countP
        (fun pr => decide (¬ (root.nsmap.lookup pr.1 = some pr.2))) = 1 →
      countErrors (okFindings (validate_root_element ctx [root])) = 1 ∧
      countWarnings (okFindings (validate_root_element ctx [root])) = 0) := by
  have h1 : check_tag_attrib ctx root "OBJID" "Is" (some ctx.item_id) = .ok [] := by
    simp [check_tag_attrib, check_tag_attrib_exists, check_tag_attrib_equals, hO]
  have h2 : check_tag_attrib ctx root "TYPE" "Is" (some "AUDIO RECORDING") = .ok [] := by
    simp [check_tag_attrib, check_tag_attrib_exists, check_tag_attrib_equals, hT]
  have hmain : validate_root_element ctx [root] =
      .ok (namespacesList.filterMap (fun pr =>
        if ¬ (root.nsmap.lookup pr.1 = some pr.2) then
          some (errF ctx ("mets xml is missing the following namespace: " ++
            pr.1 ++ ":" ++ pr.2))
        else none)) := by
    simp [validate_root_element, check_element_exists, h1, h2, Bind.bind, Except.bind]
  refine ⟨hmain, fun hcount => ?_⟩
  rw [hmain]
  have hc := countErrors_filterMap_ite ctx namespacesList
    (fun pr => ¬ (root.nsmap.lookup pr.1 = some pr.2))
    (fun pr => "mets xml is missing the following namespace: " ++ pr.1 ++ ":" ++ pr.2)
  exact ⟨by rw [okFindings, hc.1, hcount], by rw [okFindings, hc.2]⟩

/-- A root element with correct `OBJID` and `TYPE` that declares every
required namespace except `mods`. -/
def rootW : Elem :=
  .mk "mets:mets" [("OBJID", "item0"), ("TYPE", "AUDIO RECORDING")] none []
    [("mets", "http://www.loc.gov/METS/"),
     ("dc", "http://purl.org/dc/elements/1.1"),
     ("aes", "http://www.aes.org/audioObject"),
     ("ph", "http://www.aes.org/processhistory"),
     ("xlink", "http://www.w3.org/1999/xlink")]

/-- Witness for C6: the root element missing only the `mods` declaration
produces exactly one error and no warning. -/
theorem c6_root_witness :
    countErrors (okFindings (validate_root_element ctx0 [rootW])) = 1 ∧
    countWarnings (okFindings (validate_root_element ctx0 [rootW])) = 0 :=
  (c6_root ctx0 rootW rfl rfl).2 (by decide)

/-! ## Claim C2 -/

def fgrpN : Elem := .mk "mets:fileGrp" [] none [] []

/-- A fileSec whose two fileGrp children both lack an `ID` attribute. -/
def fsB : Elem := .mk "mets:fileSec" [] none [fgrpN, fgrpN] []

def fptrB : Elem := .mk "mets:fptr" [] none [] []

def divB2 : Elem := .mk "mets:div" [] none [fptrB] []

def divB1 : Elem := .mk "mets:div" [] none [divB2] []

/-- A structMap whose single fptr lacks a `FILEID` attribute. -/
def smB : Elem := .mk "mets:structMap" [] none [divB1] []

def filesB : ItemFiles := ⟨["m.xml"], ["track01.wav"], [], []⟩

/-- Claim C2 (evaluation at the failing inputs): contrary to the no-throw
design the claim states, the file-section validator aborts with an uncaught
`TypeError` when a `fileGrp` lacks an `ID` attribute (Python `sorted` on a
list containing `None`), and the structural-map validator aborts with an
uncaught `AttributeError` when an `fptr` lacks a `FILEID` attribute
(`None.replace`). -/
theorem c2_missing_attribute_crash :
    validate_file_section ctx0 [fsB] =
      .error (.exc "TypeError: unorderable types NoneType and str") ∧
    validate_structural_map_section ctx0 filesB [smB] =
      .error (.exc "AttributeError: NoneType object has no attribute replace") :=
  ⟨rfl, rfl⟩

/-! ## Claim C5 -/

theorem pySortStr_eq_iff_perm (l1 l2 : List String) :
    pySortStr l1 = pySortStr l2 ↔ l1.Perm l2 := by
  have p1 : List.Perm (pySortStr l1) l1 := List.perm_insertionSort _ l1
  have p2 : List.Perm (pySortStr l2) l2 := List.perm_insertionSort _ l2
  constructor
  · intro h
    rw [← h] at p2
    exact p1.symm.trans p2
  · intro h
    exact List.eq_of_perm_of_sorted (p1.trans (h.trans p2.symm))
      (List.sorted_insertionSort _ l1) (List.sorted_insertionSort _ l2)

/-- Evaluation of the structural-map validator on a one-structMap document
whose nested divs exist and whose fptrs all carry a `FILEID`. -/
theorem structmap_eval (ctx : Ctx) (files : ItemFiles) (sm d1 : Elem)
    (fps : List String)
    (h1 : pyFind sm "mets:div" = some d1)
    (h3 : (findall d1 "mets:div").length ≠ 0)
    (h4 : collectFilePointers (findall d1 "mets:div") = .ok fps) :
    validate_structural_map_section ctx files [sm] =
      if pySortStr fps ≠ pySortStr (files.wav ++ files.mp3) then
        .ok [errF ctx ("mets structMap fileptr IDs " ++ pyListRepr pyStrRepr fps ++
          " do not match expected " ++ pyListRepr pyStrRepr (files.wav ++ files.mp3))]
      else .ok [] := by
  unfold validate_structural_map_section
  have he : check_element_exists ctx "/mets:mets/mets:structMap" [sm] =
      (some sm, true, []) := by
    simp [check_element_exists]
  have hse : check_subelement_exists ctx sm "mets:div" = (some d1, true, []) := by
    simp [check_subelement_exists, h1]
  have hsse : check_subelements_exist ctx d1 "mets:div" none =
      (findall d1 "mets:div", true, []) := by
    simp [check_subelements_exist, h3]
  simp only [he, hse, hsse, h4]
  split <;> rename_i hc <;> simp [hc]

/-- Claim C5 (amended): for documents whose structMap scaffolding is present
and whose fptrs all carry a `FILEID` attribute (collection succeeds), the
validator emits an error if and only if the collected ids — every occurrence
of the substring "mdp." removed, then trimmed — are not a permutation of the
wav+mp3 filenames; consequently a document whose collected ids are a
permutation of those of a passing document also passes, and a document whose
collected ids drop one element of a passing document's ids gets exactly one
set-mismatch error. -/
theorem c5_amended (ctx : Ctx) (files : ItemFiles) (sm sm2 d1 d2 : Elem)
    (fps fps2 : List String)
    (h1 : pyFind sm "mets:div" = some d1)
    (h3 : (findall d1 "mets:div").length ≠ 0)
    (h4 : collectFilePointers (findall d1 "mets:div") = .ok fps)
    (g1 : pyFind sm2 "mets:div" = some d2)
    (g3 : (findall d2 "mets:div").length ≠ 0)
    (g4 : collectFilePointers (findall d2 "mets:div") = .ok fps2) :
    (validate_structural_map_section ctx files [sm] = .ok [] ↔
      fps.Perm (files.wav ++ files.mp3)) ∧
    (fps2.Perm fps →
      validate_structural_map_section ctx files [sm] = .ok [] →
      validate_structural_map_section ctx files [sm2] = .ok []) ∧
    (∀ x ∈ fps, fps2 = fps.erase x →
      validate_structural_map_section ctx files [sm] = .ok [] →
      ∃ m, validate_structural_map_section ctx files [sm2] = .ok [errF ctx m]) := by
  have e1 := structmap_eval ctx files sm d1 fps h1 h3 h4
  have e2 := structmap_eval ctx files sm2 d2 fps2 g1 g3 g4
  have iff1 : validate_structural_map_section ctx files [sm] = .ok [] ↔
      fps.Perm (files.wav ++ files.mp3) := by
    rw [e1]
    by_cases hc : pySortStr fps = pySortStr (files.wav ++ files.mp3)
    · simp [hc]
      exact (pySortStr_eq_iff_perm _ _).mp hc
    · simp [hc]
      exact fun hperm => hc ((pySortStr_eq_iff_perm _ _).mpr hperm)
  have iff2 : validate_structural_map_section ctx files [sm2] = .ok [] ↔
      fps2.Perm (files.wav ++ files.mp3) := by
    rw [e2]
    by_cases hc : pySortStr fps2 = pySortStr (files.wav ++ files.mp3)
    · simp [hc]
      exact (pySortStr_eq_iff_perm _ _).mp hc
    · simp [hc]
      exact fun hperm => hc ((pySortStr_eq_iff_perm _ _).mpr hperm)
  refine ⟨iff1, ?_, ?_⟩
  · intro hperm hok
    exact iff2.mpr (hperm.trans (iff1.mp hok))
  · intro x hx herase hok
    have hfp : fps.Perm (files.wav ++ files.mp3) := iff1.mp hok
    have hlen : fps2.length + 1 = fps.length := by
      rw [herase]
      exact List.length_erase_add_one hx
    have hnoperm : ¬ fps2.Perm (files.wav ++ files.mp3) := by
      intro hp
      have := hp.length_eq
      have := hfp.length_eq
      omega
    have hsne : pySortStr fps2 ≠ pySortStr (files.wav ++ files.mp3) := by
      intro hs
      exact hnoperm ((pySortStr_eq_iff_perm _ _).mp hs)
    rw [e2, if_pos hsne]
    exact ⟨_, rfl⟩

/-- An fptr whose FILEID contains "mdp." in the middle rather than as a
leading prefix: the source's `replace` removes it, the claim's
leading-prefix strip would not. -/
def fptrC : Elem := .mk "mets:fptr" [("FILEID", "track01.mdp.wav")] none [] []

def divC2 : Elem := .mk "mets:div" [] none [fptrC] []

def divC1 : Elem := .mk "mets:div" [] none [divC2] []

def smC : Elem := .mk "mets:structMap" [] none [divC1] []

def filesC : ItemFiles := ⟨["m.xml"], ["track01.wav"], [], []⟩

/-- For the refinement comparison with claim C5's wording: the FILEID with
any LEADING "mdp." prefix stripped and surrounding whitespace trimmed.  The
source instead removes every occurrence of the substring "mdp.". -/
def stripLeadingMdp (s : String) : String :=
  match s.data with
  | 'm' :: 'd' :: 'p' :: '.' :: rest => ⟨rest⟩
  | _ => s

/-- The claim's collection rule applied to the nested divs. -/
def collectFilePointersSpec (sub_divs : List Elem) : List String :=
  sub_divs.flatMap (fun d => (findall d "mets:fptr").filterMap (fun f =>
    (attribGet f "FILEID").map (fun fid => pyStripStr (stripLeadingMdp fid))))

/-- Claim C5 (counterexample): on a document whose single FILEID is
`"track01.mdp.wav"` with actual files `["track01.wav"]`, the validator emits
no error although the ids collected per the claim's leading-prefix rule do
not match the file list — so the claimed if-and-only-if, stated with the
leading-prefix collection rule, is false on this document. -/
theorem c5_counterexample :
    validate_structural_map_section ctx0 filesC [smC] = .ok [] ∧
    pySortStr (collectFilePointersSpec (findall divC1 "mets:div")) ≠
      pySortStr (filesC.wav ++ filesC.mp3) := by
  exact ⟨rfl, by decide⟩

def fptrW1 : Elem := .mk "mets:fptr" [("FILEID", "mdp.track01.wav")] none [] []

def fptrW2 : Elem := .mk "mets:fptr" [("FILEID", "mdp.track02.wav")] none [] []

def divW2a : Elem := .mk "mets:div" [] none [fptrW1, fptrW2] []

def divW2b : Elem := .mk "mets:div" [] none [fptrW2, fptrW1] []

def divW1a : Elem := .mk "mets:div" [] none [divW2a] []

def divW1b : Elem := .mk "mets:div" [] none [divW2b] []

def smW : Elem := .mk "mets:structMap" [] none [divW1a] []

def smW2 : Elem := .mk "mets:structMap" [] none [divW1b] []

def filesW : ItemFiles := ⟨["m.xml"], ["track01.wav", "track02.wav"], [], []⟩

/-- Witness for C5 (amended): the two-fptr document passes, and so does the
document with its fptrs reordered. -/
theorem c5_amended_witness :
    validate_structural_map_section ctx0 filesW [smW] = .ok [] ∧
    validate_structural_map_section ctx0 filesW [smW2] = .ok [] := by
  have h := c5_amended ctx0 filesW smW smW2 divW1a divW1b
    ["track01.wav", "track02.wav"] ["track02.wav", "track01.wav"]
    rfl (by decide) rfl rfl (by decide) rfl
  have hok : validate_structural_map_section ctx0 filesW [smW] = .ok [] :=
    h.1.mpr (by decide)
  exact ⟨hok, h.2.1 (by decide) hok⟩

/-! ## Claim C8: support lemmas about the normalizer's building blocks -/

theorem mem_collapseWsAux {c : Char} :
    ∀ (b : Bool) (l : List Char), c ∈ collapseWsAux b l → c = ' ' ∨ c ∈ l := by
  intro b l
  induction l generalizing b with
  | nil => intro h; cases h
  | cons d t ih =>
    intro h
    by_cases hd : isPyWs d = true
    · rw [collapseWsAux, if_pos hd] at h
      cases b with
      | true =>
        rcases ih true h with h1 | h1
        · exact Or.inl h1
        · exact Or.inr (List.mem_cons_of_mem d h1)
      | false =>
        rcases List.mem_cons.mp h with h1 | h1
        · exact Or.inl h1
        · rcases ih true h1 with h2 | h2
          · exact Or.inl h2
          · exact Or.inr (List.mem_cons_of_mem d h2)
    · rw [collapseWsAux, if_neg hd] at h
      rcases List.mem_cons.mp h with h1 | h1
      · exact Or.inr (h1 ▸ List.mem_cons_self d t)
      · rcases ih false h1 with h2 | h2
        · exact Or.inl h2
        · exact Or.inr (List.mem_cons_of_mem d h2)

theorem mem_pyMapChar {c a b : Char} {l : List Char} (h : c ∈ pyMapChar a b l) :
    c = b ∨ (c ∈ l ∧ c ≠ a) := by
  rcases List.mem_map.mp h with ⟨d, hd, hdc⟩
  by_cases hda : (d == a) = true
  · left
    rw [← hdc]
    simp [hda]
  · right
    rw [← hdc, if_neg hda]
    exact ⟨hd, by simpa using hda⟩

theorem mem_pyRemoveChar {c a : Char} {l : List Char} (h : c ∈ pyRemoveChar a l) :
    c ∈ l ∧ c ≠ a := by
  have := List.mem_filter.mp h
  simpa using this

theorem mem_pyReplaceAmp {c : Char} {l : List Char} (h : c ∈ pyReplaceAmp l) :
    c = 'a' ∨ c = 'n' ∨ c = 'd' ∨ (c ∈ l ∧ c ≠ '&') := by
  rcases List.mem_flatMap.mp h with ⟨d, hd, hc⟩
  by_cases hda : (d == '&') = true
  · rw [if_pos hda] at hc
    simp only [List.mem_cons, List.not_mem_nil, or_false] at hc
    rcases hc with h1 | h1 | h1
    · exact Or.inl h1
    · exact Or.inr (Or.inl h1)
    · exact Or.inr (Or.inr (Or.inl h1))
  · rw [if_neg hda] at hc
    simp only [List.mem_cons, List.not_mem_nil, or_false] at hc
    subst hc
    exact Or.inr (Or.inr (Or.inr ⟨hd, by simpa using hda⟩))

theorem mem_dropWhileEnd {c : Char} {p : Char → Bool} :
    ∀ {l : List Char}, c ∈ dropWhileEnd p l → c ∈ l := by
  intro l
  induction l with
  | nil => intro h; cases h
  | cons d t ih =>
    intro h
    rw [dropWhileEnd] at h
    by_cases hcond : ((dropWhileEnd p t).isEmpty && p d) = true
    · rw [if_pos hcond] at h
      cases h
    · rw [if_neg hcond] at h
      rcases List.mem_cons.mp h with h1 | h1
      · exact h1 ▸ List.mem_cons_self d t
      · exact List.mem_cons_of_mem d (ih h1)

theorem mem_pyStrip {c : Char} {l : List Char} (h : c ∈ pyStrip l) : c ∈ l :=
  (List.dropWhile_sublist isPyWs).mem (mem_dropWhileEnd h)

theorem head_dropWhile_not {p : Char → Bool} {c : Char} :
    ∀ {l : List Char}, (l.dropWhile p).head? = some c → p c = false := by
  intro l
  induction l with
  | nil => intro h; cases h
  | cons d t ih =>
    intro h
    by_cases hd : p d
    · rw [List.dropWhile_cons_of_pos hd] at h
      exact ih h
    · rw [List.dropWhile_cons_of_neg hd] at h
      simp at h
      subst h
      simpa using hd

theorem dropWhileEnd_head {p : Char → Bool} {c : Char} {r : List Char} :
    ∀ {l : List Char}, dropWhileEnd p l = c :: r → ∃ t2, l = c :: t2 := by
  intro l
  cases l with
  | nil => intro h; cases h
  | cons d t =>
    intro h
    rw [dropWhileEnd] at h
    by_cases hcond : ((dropWhileEnd p t).isEmpty && p d) = true
    · rw [if_pos hcond] at h
      cases h
    · rw [if_neg hcond] at h
      injection h with h1 h2
      exact ⟨t, by rw [h1]⟩

theorem getLast_dropWhileEnd_not {p : Char → Bool} {c : Char} :
    ∀ {l : List Char}, (dropWhileEnd p l).getLast? = some c → p c = false := by
  intro l
  induction l with
  | nil => intro h; cases h
  | cons d t ih =>
    intro h
    rw [dropWhileEnd] at h
    by_cases hcond : ((dropWhileEnd p t).isEmpty && p d) = true
    · rw [if_pos hcond] at h
      cases h
    · rw [if_neg hcond] at h
      rcases hr : dropWhileEnd p t with _ | ⟨r0, rt⟩
      · rw [hr] at h hcond
        simp at h hcond
        rw [← h]
        simpa using hcond
      · rw [hr] at h
        rw [List.getLast?_cons_cons] at h
        exact ih (hr ▸ h)

theorem head_pyStrip_not {c : Char} {l : List Char}
    (h : (pyStrip l).head? = some c) : isPyWs c = false := by
  rcases he : pyStrip l with _ | ⟨d, t⟩
  · rw [he] at h
    cases h
  · rw [he] at h
    simp at h
    rcases dropWhileEnd_head he with ⟨t2, ht2⟩
    have : (l.dropWhile isPyWs).head? = some d := by
      rw [ht2]
      rfl
    exact h ▸ head_dropWhile_not this

theorem getLast_pyStrip_not {c : Char} {l : List Char}
    (h : (pyStrip l).getLast? = some c) : isPyWs c = false :=
  getLast_dropWhileEnd_not h

/-- The claim's single-spacing property for adjacent characters: no two
consecutive whitespace characters. -/
def wsOk (a b : Char) : Prop := isPyWs a = false ∨ isPyWs b = false

instance (a b : Char) : Decidable (wsOk a b) :=
  inferInstanceAs (Decidable (isPyWs a = false ∨ isPyWs b = false))

theorem collapse_true_head :
    ∀ (l : List Char) (c : Char),
      (collapseWsAux true l).head? = some c → isPyWs c = false := by
  intro l
  induction l with
  | nil => intro c h; cases h
  | cons d t ih =>
    intro c h
    by_cases hd : isPyWs d = true
    · rw [collapseWsAux, if_pos hd] at h
      exact ih c h
    · rw [collapseWsAux, if_neg hd] at h
      simp at h
      subst h
      simpa using hd

theorem chain_collapseWsAux :
    ∀ (b : Bool) (l : List Char), List.Chain' wsOk (collapseWsAux b l) := by
  intro b l
  induction l generalizing b with
  | nil => simp [collapseWsAux]
  | cons d t ih =>
    by_cases hd : isPyWs d = true
    · rw [collapseWsAux, if_pos hd]
      cases b with
      | true => exact ih true
      | false =>
        refine List.chain'_cons'.mpr ⟨fun y hy => Or.inr ?_, ih true⟩
        exact collapse_true_head t y hy
    · rw [collapseWsAux, if_neg hd]
      exact List.chain'_cons'.mpr ⟨fun y _ => Or.inl (by simpa using hd), ih false⟩

theorem head_pyReplaceAmp :
    ∀ (l : List Char) (y : Char), (pyReplaceAmp l).head? = some y →
      ∃ d t, l = d :: t ∧ isPyWs y = isPyWs d := by
  intro l
  cases l with
  | nil => intro y h; cases h
  | cons d t =>
    intro y h
    rw [pyReplaceAmp, List.flatMap_cons] at h
    by_cases hd : (d == '&') = true
    · rw [if_pos hd] at h
      simp only [List.cons_append, List.head?_cons, Option.some.injEq] at h
      subst h
      refine ⟨d, t, rfl, ?_⟩
      have : d = '&' := by simpa using hd
      subst this
      rfl
    · rw [if_neg hd] at h
      simp only [List.cons_append, List.nil_append, List.head?_cons,
        Option.some.injEq] at h
      subst h
      exact ⟨d, t, rfl, rfl⟩

theorem chain_pyReplaceAmp :
    ∀ {l : List Char}, List.Chain' wsOk l → List.Chain' wsOk (pyReplaceAmp l) := by
  intro l
  induction l with
  | nil => intro h; simp [pyReplaceAmp]
  | cons d t ih =>
    intro h
    have hh := List.chain'_cons'.mp h
    rw [pyReplaceAmp, List.flatMap_cons]
    have htail : List.Chain' wsOk (pyReplaceAmp t) := ih hh.2
    have hstep : ∀ y, (pyReplaceAmp t).head? = some y → wsOk d y := by
      intro y hy
      rcases head_pyReplaceAmp t y hy with ⟨z, t2, hz, hws⟩
      have hdz : wsOk d z := hh.1 z (by rw [hz]; rfl)
      rcases hdz with h1 | h1
      · exact Or.inl h1
      · exact Or.inr (hws ▸ h1)
    by_cases hd : (d == '&') = true
    · rw [if_pos hd]
      refine List.chain'_cons'.mpr ⟨fun y _ => Or.inl rfl, ?_⟩
      refine List.chain'_cons'.mpr ⟨fun y _ => Or.inl rfl, ?_⟩
      refine List.chain'_cons'.mpr ⟨fun y hy => Or.inl rfl, htail⟩
    · rw [if_neg hd]
      simp only [List.cons_append, List.nil_append]
      exact List.chain'_cons'.mpr ⟨fun y hy => hstep y hy, htail⟩

theorem chain_dropWhile {p : Char → Bool} :
    ∀ {l : List Char}, List.Chain' wsOk l → List.Chain' wsOk (l.dropWhile p) := by
  intro l
  induction l with
  | nil => intro h; exact h
  | cons d t ih =>
    intro h
    by_cases hd : p d
    · rw [List.dropWhile_cons_of_pos hd]
      exact ih h.tail
    · rw [List.dropWhile_cons_of_neg hd]
      exact h

theorem chain_dropWhileEnd {p : Char → Bool} :
    ∀ {l : List Char}, List.Chain' wsOk l → List.Chain' wsOk (dropWhileEnd p l) := by
  intro l
  induction l with
  | nil => intro h; exact h
  | cons d t ih =>
    intro h
    rw [dropWhileEnd]
    by_cases hcond : ((dropWhileEnd p t).isEmpty && p d) = true
    · rw [if_pos hcond]
      exact List.chain'_nil
    · rw [if_neg hcond]
      refine List.chain'_cons'.mpr ⟨fun y hy => ?_, ih h.tail⟩
      rcases hr : dropWhileEnd p t with _ | ⟨r0, rt⟩
      · rw [hr] at hy
        cases hy
      · rw [hr] at hy
        simp at hy
        subst hy
        rcases dropWhileEnd_head hr with ⟨t2, ht2⟩
        exact (List.chain'_cons'.mp h).1 r0 (by rw [ht2]; rfl)

theorem chain_pyStrip {l : List Char} (h : List.Chain' wsOk l) :
    List.Chain' wsOk (pyStrip l) :=
  chain_dropWhileEnd (chain_dropWhile h)

theorem pyRemoveChar_id {a : Char} {l : List Char} (h : ∀ c ∈ l, c ≠ a) :
    pyRemoveChar a l = l :=
  List.filter_eq_self.mpr (fun c hc => by simpa using h c hc)

theorem pyMapChar_id {a b : Char} {l : List Char} (h : ∀ c ∈ l, c ≠ a) :
    pyMapChar a b l = l := by
  unfold pyMapChar
  have : l.map (fun c => if c == a then b else c) = l.map id :=
    List.map_congr_left (fun c hc => by simp [h c hc])
  rw [this, List.map_id]

/-- The punctuation-stripping and ampersand steps of the normalizer preserve
the no-adjacent-whitespace property when the list contains none of the
stripped punctuation characters. -/
theorem chain_sanitize_core (L2 : List Char)
    (hchain : List.Chain' wsOk L2)
    (hmem : ∀ c ∈ L2, ¬(c = '\x22' ∨ c = '“' ∨ c = '”' ∨ c = '\x27' ∨ c = '-' ∨
      c = ';' ∨ c = '…')) :
    List.Chain' wsOk (pyStrip (pyReplaceAmp (pyRemoveChar '…' (pyRemoveChar ';'
      (pyRemoveChar '-' (pyRemoveChar '\x27' (pyRemoveChar '\x22'
      (pyMapChar '”' '\x22' (pyMapChar '“' '\x22' L2))))))))) := by
  have e1 : pyMapChar '“' '\x22' L2 = L2 :=
    pyMapChar_id (fun c hc h => hmem c hc (Or.inr (Or.inl h)))
  rw [e1]
  have e2 : pyMapChar '”' '\x22' L2 = L2 :=
    pyMapChar_id (fun c hc h => hmem c hc (Or.inr (Or.inr (Or.inl h))))
  rw [e2]
  have e3 : pyRemoveChar '\x22' L2 = L2 :=
    pyRemoveChar_id (fun c hc h => hmem c hc (Or.inl h))
  rw [e3]
  have e4 : pyRemoveChar '\x27' L2 = L2 :=
    pyRemoveChar_id (fun c hc h => hmem c hc (Or.inr (Or.inr (Or.inr (Or.inl h)))))
  rw [e4]
  have e5 : pyRemoveChar '-' L2 = L2 :=
    pyRemoveChar_id (fun c hc h =>
      hmem c hc (Or.inr (Or.inr (Or.inr (Or.inr (Or.inl h))))))
  rw [e5]
  have e6 : pyRemoveChar ';' L2 = L2 :=
    pyRemoveChar_id (fun c hc h =>
      hmem c hc (Or.inr (Or.inr (Or.inr (Or.inr (Or.inr (Or.inl h)))))))
  rw [e6]
  have e7 : pyRemoveChar '…' L2 = L2 :=
    pyRemoveChar_id (fun c hc h =>
      hmem c hc (Or.inr (Or.inr (Or.inr (Or.inr (Or.inr (Or.inr h)))))))
  rw [e7]
  exact chain_pyStrip (chain_pyReplaceAmp hchain)

/-- The claim's wording for the ampersand clause: `r` is obtained from `l`
by putting the literal word "and" in place of every ampersand and keeping
every other character unchanged. -/
inductive ampReplaced : List Char → List Char → Prop where
  | nil : ampReplaced [] []
  | amp {t r} : ampReplaced t r → ampReplaced ('&' :: t) ('a' :: 'n' :: 'd' :: r)
  | keep {c t r} : c ≠ '&' → ampReplaced t r → ampReplaced (c :: t) (c :: r)

/-- The source's `text.replace("&", "and")` step performs exactly the
per-occurrence substitution the claim describes. -/
theorem pyReplaceAmp_is_ampReplaced :
    ∀ l : List Char, ampReplaced l (pyReplaceAmp l) := by
  intro l
  induction l with
  | nil => exact ampReplaced.nil
  | cons c t ih =>
    rw [pyReplaceAmp, List.flatMap_cons]
    by_cases hc : (c == '&') = true
    · rw [if_pos hc]
      have : c = '&' := by simpa using hc
      subst this
      exact ampReplaced.amp ih
    · rw [if_neg hc]
      exact ampReplaced.keep (by simpa using hc) ih

end Baroque
